import Mathlib

/-!
Shallow embedding of the jb-show-scraper-rss feed-ingestion pipeline
(`src/scraper.py` and the schema declarations under `src/models/`),
together with theorems settling the specification claims about it.

Python machine behaviour is modelled explicitly:
- an uncaught Python exception is an `Except.error` carrying a `PyError`;
- Python truthiness of optional integers (`x or -1`) is `pyOrNegOne`;
- `loguru` calls are modelled as `LogEvent` values accumulated in order;
- the filesystem is a finite map from segment paths to typed file data,
  plus the set of directories created so far.

Strings are modelled over their ASCII fragment: `\d` of Python's `re` and
`str.isnumeric` coincide with `Char.isDigit` on the inputs the scraper
handles (feed titles, URLs, episode numbers).
-/

namespace JBShowScraper

/-! ## Python-level primitives -/

/-- An uncaught Python exception escaping the modelled code. -/
inductive PyError
  | attributeError
  | typeError
  | taskFailure
deriving Repr, DecidableEq

/-- One `loguru` emission, identified by call site (`src/scraper.py`). -/
inductive LogEvent
  | skipExistsWarn          -- save_file: skipping existing file, not overwriting
  | savedFileInfo           -- save_file: file written
  | dontOverrideWarn        -- process_and_serialize_object: data_dont_override hit
  | sponsorLatestWarn       -- process_and_serialize_object: current file is the latest
  | chaptersRetryWarn       -- get_podcast_chapters: transient error, will retry
  | chaptersInvalidWarn     -- get_podcast_chapters: invalid chapters JSON
  | chaptersExhaustedError  -- get_podcast_chapters: unable to retrieve chapters
deriving Repr, DecidableEq

/-- Python truthiness default `x or -1` applied to an optional integer:
`None` and `0` are falsy and yield `-1`. -/
def pyOrNegOne : Option Int → Int
  | none => -1
  | some v => if v = 0 then -1 else v

/-! ## Data model

`Sponsor` and `Participant` mirror the record shapes the scraper builds
(`src/scraper.py:117` and the `Participant(...)` constructor call at
`src/scraper.py:346-354`); the pydantic model files themselves are not
part of the sources, so the field lists are taken from those call sites. -/

structure Sponsor where
  shortname : String
  episode : Option Int
deriving Repr, DecidableEq

structure Participant where
  type : String
  username : String
  title : String
  homepage : Option String
  avatar : Option String
deriving Repr, DecidableEq

/-- The `Participant | Sponsor` union accepted by `process_and_serialize_object`. -/
inductive RegObject
  | sponsor (s : Sponsor)
  | participant (p : Participant)
deriving Repr, DecidableEq

/-! ## Filesystem model

A path is its list of segments.  A file holds either raw text (episode
markdown) or a front-matter document whose metadata block is a serialized
`Sponsor` or `Participant` record, as written by
`dumps(Post('', **obj.model_dump(mode='json')))`. -/

abbrev FsPath := List String

inductive FileData
  | raw (s : String)
  | sponsorDoc (s : Sponsor)
  | participantDoc (p : Participant)
deriving Repr, DecidableEq

/-- Front-matter serialization of a registry object (injective by construction,
mirroring that `frontmatter.load` recovers exactly the dumped metadata). -/
def serializeObject : RegObject → FileData
  | .sponsor s => .sponsorDoc s
  | .participant p => .participantDoc p

/-- `post_file.metadata.get("episode", None)` on a persisted document. -/
def fileEpisodeField : FileData → Option Int
  | .sponsorDoc s => s.episode
  | _ => none

/-- Set a key in an association list, keeping first-occurrence position. -/
def assocSet (l : List (FsPath × FileData)) (p : FsPath) (d : FileData) :
    List (FsPath × FileData) :=
  match l with
  | [] => [(p, d)]
  | (q, e) :: rest => if q = p then (p, d) :: rest else (q, e) :: assocSet rest p d

structure FS where
  files : List (FsPath × FileData)
  dirs : List FsPath
deriving Repr, DecidableEq

/-- Read a file (`file_path.exists()` + `open(file_path).read()`). -/
def FS.read (fs : FS) (p : FsPath) : Option FileData :=
  (fs.files.find? (fun kv => kv.1 == p)).map (fun kv => kv.2)

/-- Write a file, creating every missing ancestor directory
(`file_path.parent.mkdir(parents=True, exist_ok=True)` then `open(...,mode).write`). -/
def FS.writeFile (fs : FS) (p : FsPath) (d : FileData) : FS :=
  { files := assocSet fs.files p d
    dirs := fs.dirs ++ p.inits.dropLast }

/-! ## `save_file` (src/scraper.py:456-465) -/

/-- `save_file(file_path, content, mode, overwrite)`: returns the new
filesystem, the boolean result, and the log emissions. -/
def save_file (fs : FS) (file_path : FsPath) (content : FileData)
    (overwrite : Bool) : FS × Bool × List LogEvent :=
  if !overwrite && (fs.read file_path).isSome then
    (fs, false, [.skipExistsWarn])
  else
    (fs.writeFile file_path content, true, [.savedFileInfo])

/-! ## `process_and_serialize_object` (src/scraper.py:412-454) -/

/-- Registry flush of a single `(filename, obj)` entry onto `dest_dir`.
`dont_override` is `CONFIGURATION.data_dont_override`.  An `Except.error`
models an uncaught Python exception: `int(file_ep) >= None` raises
`TypeError`, and `Participant(**metadata)` on metadata that is not a
persisted participant document raises a validation error. -/
def process_and_serialize_object (fs : FS) (filename : String) (obj : RegObject)
    (dest_dir : FsPath) (dont_override : List String) (overwrite : Bool) :
    Except PyError (FS × List LogEvent) :=
  let file_path := dest_dir ++ [filename]
  if (fs.read file_path).isSome && dont_override.contains filename then
    .ok (fs, [.dontOverrideWarn])
  else
    match fs.read file_path with
    | none =>
        let r := save_file fs file_path (serializeObject obj) overwrite
        .ok (r.1, r.2.2)
    | some content =>
        match obj with
        | .sponsor s =>
            match fileEpisodeField content with
            | some fe =>
                if fe ≠ 0 then
                  -- file_ep is truthy: evaluate int(file_ep) >= obj.episode
                  match s.episode with
                  | some e =>
                      if e ≤ fe then
                        .ok (fs, [.sponsorLatestWarn])
                      else
                        let r := save_file fs file_path (serializeObject obj) overwrite
                        .ok (r.1, r.2.2)
                  | none => .error .typeError
                else
                  let r := save_file fs file_path (serializeObject obj) overwrite
                  .ok (r.1, r.2.2)
            | none =>
                let r := save_file fs file_path (serializeObject obj) overwrite
                .ok (r.1, r.2.2)
        | .participant p =>
            match content with
            | .participantDoc old =>
                let merged : Participant :=
                  { old with homepage := p.homepage, avatar := p.avatar }
                let r := save_file fs file_path (.participantDoc merged) overwrite
                .ok (r.1, r.2.2)
            | _ => .error .attributeError

/-! ## The in-memory sponsor registry update (src/scraper.py:117)

`SPONSORS.update([(key, sponsor) for key, sponsor in sponsors.items()
  if int(sponsor.episode or -1) > SPONSORS.get(key, SimpleNamespace(episode=-1)).episode])`

restricted to one key.  The stored object's raw `.episode` is compared;
on every registry state reachable from empty, a stored record's raw
episode equals `pyOrNegOne` of its episode (it passed a `> -1` filter,
so it is `some v` with `v ≥ 1`), which `registryVal` exploits to stay total. -/

def sponsorVal (s : Sponsor) : Int := pyOrNegOne s.episode

def registryVal : Option Sponsor → Int
  | none => -1
  | some t => sponsorVal t

/-- One update of the per-key registry cell. -/
def updateSponsor (reg : Option Sponsor) (s : Sponsor) : Option Sponsor :=
  if registryVal reg < sponsorVal s then some s else reg

/-- A whole sequence of updates to the same key, starting from an empty cell. -/
def applySponsorUpdates (l : List Sponsor) : Option Sponsor :=
  l.foldl updateSponsor none

/-! ## `get_podcast_chapters` (src/scraper.py:51-83)

The network is abstracted by an oracle giving the outcome of attempt `i`.
The final `return Chapters(**response.json())` sits outside the
`try`/`except`: when the retry loop exhausts without a `break`, `response`
is either still `None` (every attempt raised `ChunkedEncodingError`) or a
response whose body is empty, and evaluating `response.json()` raises —
modelled as `Except.error`. -/

inductive AttemptOutcome
  | transientError          -- requests.exceptions.ChunkedEncodingError
  | httpStatusError         -- raise_for_status() raises requests.HTTPError
  | emptyBody               -- `not response.text` holds, loop continues
  | invalidBody             -- Chapters.model_validate_json raises ValidationError
  | validBody (ch : Nat)    -- body validates; `ch` identifies the payload
deriving Repr, DecidableEq

def chaptersAttemptLoop (oracle : Nat → AttemptOutcome) (hasChaptersRef : Bool) :
    Nat → Nat → List LogEvent → Except PyError (Option Nat) × List LogEvent
  | _, 0, logs => (.error .attributeError, logs ++ [.chaptersExhaustedError])
  | i, r + 1, logs =>
    if hasChaptersRef then
      match oracle i with
      | .transientError =>
          chaptersAttemptLoop oracle hasChaptersRef (i + 1) r (logs ++ [.chaptersRetryWarn])
      | .httpStatusError => (.ok none, logs)
      | .emptyBody => chaptersAttemptLoop oracle hasChaptersRef (i + 1) r logs
      | .invalidBody => (.ok none, logs ++ [.chaptersInvalidWarn])
      | .validBody ch => (.ok (some ch), logs)
    else
      -- `chapters.url` raised AttributeError inside the try, caught: return None
      (.ok none, logs)

/-- `get_podcast_chapters(chapters)` with `Settings.Retry_Count = retry_count`;
`hasChaptersRef` is whether the feed item carried a chapters reference. -/
def get_podcast_chapters (hasChaptersRef : Bool) (retry_count : Nat)
    (oracle : Nat → AttemptOutcome) : Except PyError (Option Nat) × List LogEvent :=
  chaptersAttemptLoop oracle hasChaptersRef 0 retry_count []

/-! ## The drain loop and per-show section of `main` (src/scraper.py:489-508) -/

/-- `for future in concurrent.futures.as_completed(futures): future.result()`
over the completed task results: the first failed task's exception re-raises. -/
def drainFutures : List (Except PyError Unit) → Except PyError Unit
  | [] => .ok ()
  | .ok _ :: rest => drainFutures rest
  | .error e :: _ => .error e

/-- One show's executor section: drain all episode-build futures, then run
`save_sponsors` / `save_participants`.  The boolean reports whether the
registry flush executed. -/
def runShowSection (results : List (Except PyError Unit)) :
    Except PyError Unit × Bool :=
  match drainFutures results with
  | .ok _ => (.ok (), true)
  | .error e => (.error e, false)

/-- The show loop of `main`: shows processed sequentially; an exception
escaping one show's section propagates out of `main`, skipping the rest
and the final success marker. -/
def scraperProcess (shows : List (List (Except PyError Unit))) :
    Except PyError Unit :=
  match shows with
  | [] => .ok ()
  | r :: rest =>
      match (runShowSection r).1 with
      | .ok _ => scraperProcess rest
      | .error e => .error e

/-! ## iTunes episode types (src/models/itunes.py:19-23) and the bonus
guard of `build_episode_file` (src/scraper.py:157-160) -/

/-- `EPISODE_TYPES = Literal['Full', 'Trailer', 'Bonus']`: the only values a
validated item's `itunes_episodeType` can hold. -/
inductive EpisodeType
  | full
  | trailer
  | bonus
deriving Repr, DecidableEq

/-- The literal string a validated `itunes:episodeType` element carries. -/
def EpisodeType.render : EpisodeType → String
  | .full => "Full"
  | .trailer => "Trailer"
  | .bonus => "Bonus"

/-- `item.itunes_episodeType == 'bonus'` — `None == 'bonus'` is `False`. -/
def bonus_guard (itunes_episodeType : Option EpisodeType) : Bool :=
  match itunes_episodeType with
  | some t => t.render == "bonus"
  | none => false

inductive BuildStep
  | skippedBonus
  | proceeds
deriving Repr, DecidableEq

/-- The first statement of `build_episode_file`: skip and return on the
bonus guard, otherwise continue building the episode file. -/
def build_episode_first_step (itunes_episodeType : Option EpisodeType) : BuildStep :=
  if bonus_guard itunes_episodeType then .skippedBonus else .proceeds

/-! ## Episode numbering (src/scraper.py:147-155 and 162-165) -/

/-- The literal `"Pocket Office "` of the optional group prefix. -/
def pocketOfficeChars : List Char := "Pocket Office ".toList

/-- Span of leading decimal digits (`\d+` is greedy and, followed by a
single literal `:`, never needs to backtrack to a shorter run). -/
def digitSpan : List Char → List Char × List Char
  | [] => ([], [])
  | c :: rest =>
      if c.isDigit then
        let (ds, rem) := digitSpan rest
        (c :: ds, rem)
      else ([], c :: rest)

/-- Match `\d+:` at the head, returning the digit group. -/
def matchDigitsColon (cs : List Char) : Option (List Char) :=
  let (ds, rem) := digitSpan cs
  if ds ≠ [] ∧ rem.head? = some ':' then some ds else none

/-- Match `((?:Pocket Office )?\d+):` at the head: the optional group is
greedy, so the `Pocket Office `-prefixed branch is tried first. -/
def matchGroupAt (cs : List Char) : Option (List Char) :=
  match (if pocketOfficeChars.isPrefixOf cs then
           (matchDigitsColon (cs.drop pocketOfficeChars.length)).map
             (fun ds => pocketOfficeChars ++ ds)
         else none) with
  | some g => some g
  | none => matchDigitsColon cs

/-- The lazy `.*?` scan of `re.match(r'.*?((?:Pocket Office )?\d+):', title)`:
try the group at each position left to right; `.` cannot cross a newline. -/
def regexScan : List Char → Option (List Char)
  | [] => none
  | c :: rest =>
      match matchGroupAt (c :: rest) with
      | some g => some g
      | none => if c = '\n' then none else regexScan rest

/-- `parse_episode_number(title)`: the matched group, or `''` when the match
fails (`AttributeError` caught). -/
def parse_episode_number (title : String) : String :=
  match regexScan title.toList with
  | some g => String.mk g
  | none => ""

/-- `str.isnumeric()` over the ASCII fragment: nonempty and all digits. -/
def pyIsNumeric (s : String) : Bool :=
  !s.toList.isEmpty && s.toList.all Char.isDigit

/-- `int(s)` for a numeric string. -/
def pyInt (s : String) : Nat :=
  s.toList.foldl (fun n c => 10 * n + (c.toNat - 48)) 0

/-- The format `f'{n:04}'`: zero-pad to a minimum width of four. -/
def pad4 (n : Nat) : String :=
  String.mk (List.replicate (4 - (toString n).length) '0') ++ toString n

/-- `link.split("/")[-1]` (Python `split` always yields at least one part). -/
def lastUrlSegment (link : String) : String :=
  (link.split (fun c => c = '/')).getLastD ""

/-- `item.podcast_episode.episode if item.podcast_episode else
parse_episode_number(item.title)` (src/scraper.py:162). -/
def episodeString (podcast_episode : Option String) (title : String) : String :=
  match podcast_episode with
  | some e => e
  | none => parse_episode_number title

/-- src/scraper.py:163: `(int(es), f'{int(es):04}') if es.isnumeric()
else tuple((item.link.split("/")[-1],))*2`. -/
def deriveEpisodeNumber (podcast_episode : Option String) (title link : String) :
    (Nat ⊕ String) × String :=
  if pyIsNumeric (episodeString podcast_episode title) then
    (Sum.inl (pyInt (episodeString podcast_episode title)),
     pad4 (pyInt (episodeString podcast_episode title)))
  else (Sum.inr (lastUrlSegment link), lastUrlSegment link)

/-- src/scraper.py:165: the output file name
`f'{episode_number_padded.replace("/","")}.md'`. -/
def outputFileName (episode_number_padded : String) : String :=
  (episode_number_padded.replace "/" "") ++ ".md"

/-! ## `get_canonical_username` (src/scraper.py:85-91) -/

/-- `username.name.lower().replace(" ", "-")`: single-character replacement
after lowering is a per-character map. -/
def pyLowerHyphen (name : String) : String :=
  String.mk (name.toList.map (fun c => if c = ' ' then '-' else c.toLower))

/-- `next(filter(str.__instancecheck__, (key for key, list in
CONFIGURATION.usernames_map.items() if username.name in list)),
username.name.lower().replace(" ", "-"))`.  Every key of the mapping is a
`str`, so the instance-check filter passes each candidate through; the
mapping iterates in insertion order, modelled as an association list. -/
def get_canonical_username (usernames_map : List (String × List String))
    (name : String) : String :=
  match usernames_map.find? (fun kv => kv.2.contains name) with
  | some kv => kv.1
  | none => pyLowerHyphen name

/-! ## Description selection (src/scraper.py:199) -/

/-- `item.itunes_subtitle.root if item.itunes_subtitle else
get_description(item.description)`: the HTML description cleaner is kept
abstract, as the selection never inspects it when a subtitle is present. -/
def episode_description (cleaner : String → String)
    (itunes_subtitle : Option String) (raw_description : String) : String :=
  match itunes_subtitle with
  | some s => s
  | none => cleaner raw_description

/-! # Theorems -/

/-! ## Helper lemmas on the drain loop -/

theorem drainFutures_ok_iff (results : List (Except PyError Unit)) :
    drainFutures results = .ok () ↔ ∀ r ∈ results, r = .ok () := by
  induction results with
  | nil => simp [drainFutures]
  | cons r rest ih =>
      cases r with
      | ok u => cases u; simpa [drainFutures] using ih
      | error e => simp [drainFutures]

/-! ## Helper lemmas on the filesystem model -/

theorem assocSet_find_self (l : List (FsPath × FileData)) (p : FsPath) (d : FileData) :
    (assocSet l p d).find? (fun kv => kv.1 == p) = some (p, d) := by
  induction l with
  | nil => simp [assocSet, List.find?]
  | cons kv rest ih =>
      obtain ⟨q, e⟩ := kv
      by_cases h : q = p
      · subst h
        simp [assocSet, List.find?]
      · simp [assocSet, h, List.find?, ih]

theorem assocSet_find_other (l : List (FsPath × FileData)) (p : FsPath) (d : FileData)
    (q : FsPath) (h : q ≠ p) :
    (assocSet l p d).find? (fun kv => kv.1 == q) = l.find? (fun kv => kv.1 == q) := by
  have hpq : (p == q) = false := beq_eq_false_iff_ne.mpr (Ne.symm h)
  induction l with
  | nil => simp [assocSet, List.find?, hpq]
  | cons kv rest ih =>
      obtain ⟨a, e⟩ := kv
      by_cases hap : a = p
      · subst hap
        simp [assocSet, List.find?, hpq]
      · simp only [assocSet, if_neg hap]
        cases haq : (a == q) with
        | true => simp [List.find?, haq]
        | false => simp [List.find?, haq, ih]

theorem FS.read_writeFile_self (fs : FS) (p : FsPath) (d : FileData) :
    (fs.writeFile p d).read p = some d := by
  unfold FS.read FS.writeFile
  rw [assocSet_find_self]
  rfl

theorem FS.read_writeFile_other (fs : FS) (p q : FsPath) (d : FileData) (h : q ≠ p) :
    (fs.writeFile p d).read q = fs.read q := by
  unfold FS.read FS.writeFile
  rw [assocSet_find_other _ _ _ _ h]

/-! ## Claim C7 -/

/-- Claim C7 (confirmed): on a path with no existing file, a first
`save_file` call with `overwrite=false` writes the content, creates every
missing parent directory, and returns true; a second identical call
leaves the file unchanged, logs a skip, and returns false; and with
`overwrite=false` a call on any pre-existing path never modifies the
filesystem at all. -/
theorem writer_idempotent (fs : FS) (p : FsPath) (c : FileData)
    (habsent : fs.read p = none) :
    (save_file fs p c false).2.1 = true ∧
    ((save_file fs p c false).1).read p = some c ∧
    (save_file fs p c false).2.2 = [LogEvent.savedFileInfo] ∧
    (∀ q ∈ p.inits.dropLast, q ∈ ((save_file fs p c false).1).dirs) ∧
    save_file ((save_file fs p c false).1) p c false =
      ((save_file fs p c false).1, false, [LogEvent.skipExistsWarn]) ∧
    (∀ fs2 : FS, ∀ c2 : FileData, (fs2.read p).isSome = true →
       save_file fs2 p c2 false = (fs2, false, [LogEvent.skipExistsWarn])) := by
  have hfirst : save_file fs p c false = (fs.writeFile p c, true, [LogEvent.savedFileInfo]) := by
    simp [save_file, habsent]
  have hread : (fs.writeFile p c).read p = some c := FS.read_writeFile_self fs p c
  refine ⟨by rw [hfirst], by rw [hfirst]; exact hread, by rw [hfirst], ?_, ?_, ?_⟩
  · intro q hq
    rw [hfirst]
    exact List.mem_append_right _ hq
  · rw [hfirst]
    simp [save_file, hread]
  · intro fs2 c2 hex
    simp [save_file, hex]

/-- Witness for claim C7 at a concrete fresh path. -/
theorem writer_idempotent_witness :
    (save_file ⟨[], []⟩ ["content", "a.md"] (FileData.raw "x") false).2.1 = true ∧
    ((save_file ⟨[], []⟩ ["content", "a.md"] (FileData.raw "x") false).1).read
      ["content", "a.md"] = some (FileData.raw "x") ∧
    (save_file ⟨[], []⟩ ["content", "a.md"] (FileData.raw "x") false).2.2 =
      [LogEvent.savedFileInfo] ∧
    (∀ q ∈ (["content", "a.md"] : FsPath).inits.dropLast,
       q ∈ ((save_file ⟨[], []⟩ ["content", "a.md"] (FileData.raw "x") false).1).dirs) ∧
    save_file ((save_file ⟨[], []⟩ ["content", "a.md"] (FileData.raw "x") false).1)
      ["content", "a.md"] (FileData.raw "x") false =
      ((save_file ⟨[], []⟩ ["content", "a.md"] (FileData.raw "x") false).1, false,
       [LogEvent.skipExistsWarn]) ∧
    (∀ fs2 : FS, ∀ c2 : FileData, (fs2.read ["content", "a.md"]).isSome = true →
       save_file fs2 ["content", "a.md"] c2 false =
         (fs2, false, [LogEvent.skipExistsWarn])) :=
  writer_idempotent ⟨[], []⟩ ["content", "a.md"] (FileData.raw "x") rfl

/-! ## Claim C3 -/

/-- Claim C3 (confirmed): flushing a `ParticipantRecord` onto an existing,
non-exempted file changes at most the `avatar` and `homepage` fields of
the persisted document; the role class, username and display name are
preserved exactly, and no other file of the filesystem changes. -/
theorem participant_flush_frame (fs : FS) (filename : String) (dest_dir : FsPath)
    (dont_override : List String) (overwrite : Bool) (old cand : Participant)
    (hexist : fs.read (dest_dir ++ [filename]) = some (.participantDoc old))
    (hexempt : dont_override.contains filename = false) :
    ∃ fs2 logs after,
      process_and_serialize_object fs filename (.participant cand) dest_dir
        dont_override overwrite = .ok (fs2, logs) ∧
      fs2.read (dest_dir ++ [filename]) = some (.participantDoc after) ∧
      after.type = old.type ∧ after.username = old.username ∧ after.title = old.title ∧
      (∀ q, q ≠ dest_dir ++ [filename] → fs2.read q = fs.read q) := by
  have hexempt' : filename ∉ dont_override := by simpa using hexempt
  cases overwrite with
  | false =>
      refine ⟨fs, [LogEvent.skipExistsWarn], old, ?_, hexist, rfl, rfl, rfl, fun q _ => rfl⟩
      simp [process_and_serialize_object, hexist, hexempt', save_file]
  | true =>
      refine ⟨fs.writeFile (dest_dir ++ [filename])
          (.participantDoc { old with homepage := cand.homepage, avatar := cand.avatar }),
        [LogEvent.savedFileInfo],
        { old with homepage := cand.homepage, avatar := cand.avatar },
        ?_, FS.read_writeFile_self _ _ _, rfl, rfl, rfl,
        fun q hq => FS.read_writeFile_other _ _ _ _ hq⟩
      simp [process_and_serialize_object, hexist, hexempt', save_file]

/-- Witness for claim C3 at a concrete existing participant file. -/
theorem participant_flush_frame_witness :
    ∃ fs2 logs after,
      process_and_serialize_object
        ⟨[(["content", "people", "chris.md"],
           FileData.participantDoc ⟨"host", "chris", "Chris", none, none⟩)], []⟩
        "chris.md"
        (RegObject.participant ⟨"guest", "other", "Other", some "https://h",
          some "/images/people/chris.jpg"⟩)
        ["content", "people"] [] true = .ok (fs2, logs) ∧
      fs2.read ["content", "people", "chris.md"] = some (.participantDoc after) ∧
      after.type = "host" ∧ after.username = "chris" ∧ after.title = "Chris" ∧
      (∀ q, q ≠ ["content", "people", "chris.md"] →
        fs2.read q =
          (⟨[(["content", "people", "chris.md"],
              FileData.participantDoc ⟨"host", "chris", "Chris", none, none⟩)], []⟩ : FS).read q) :=
  participant_flush_frame _ "chris.md" ["content", "people"] [] true
    ⟨"host", "chris", "Chris", none, none⟩
    ⟨"guest", "other", "Other", some "https://h", some "/images/people/chris.jpg"⟩
    rfl rfl

/-! ## Claim C1 -/

/-- Claim C1 (corrected): the sponsor registry flush onto an existing,
non-exempted file does NOT write whenever the candidate's episode number
is strictly greater — the write additionally requires the global
overwrite setting, because `process_and_serialize_object` forwards
`Settings.Overwrite_Existing` to `save_file`, which skips any existing
file when it is false.  With persisted episode `eOld ≥ 1` and candidate
episode `eNew ≥ 1`: the candidate is written iff `overwrite` is true and
`eOld < eNew`; in every other case the file is unchanged and a skip is
logged. -/
theorem sponsor_flush_overwrite_gated (fs : FS) (filename sn sn2 : String)
    (dest_dir : FsPath) (dont_override : List String) (overwrite : Bool)
    (eOld eNew : Int)
    (hexist : fs.read (dest_dir ++ [filename]) = some (.sponsorDoc ⟨sn, some eOld⟩))
    (hexempt : dont_override.contains filename = false)
    (hOld : 1 ≤ eOld) (_hNew : 1 ≤ eNew) :
    (eOld < eNew → overwrite = true →
       process_and_serialize_object fs filename (.sponsor ⟨sn2, some eNew⟩) dest_dir
         dont_override overwrite =
       .ok (fs.writeFile (dest_dir ++ [filename]) (.sponsorDoc ⟨sn2, some eNew⟩),
            [LogEvent.savedFileInfo])) ∧
    (eOld < eNew → overwrite = false →
       process_and_serialize_object fs filename (.sponsor ⟨sn2, some eNew⟩) dest_dir
         dont_override overwrite = .ok (fs, [LogEvent.skipExistsWarn])) ∧
    (eNew ≤ eOld →
       process_and_serialize_object fs filename (.sponsor ⟨sn2, some eNew⟩) dest_dir
         dont_override overwrite = .ok (fs, [LogEvent.sponsorLatestWarn])) := by
  have hexempt' : filename ∉ dont_override := by simpa using hexempt
  have hOld0 : eOld ≠ 0 := by omega
  refine ⟨?_, ?_, ?_⟩
  · intro hlt hov
    subst hov
    have hnle : ¬ eNew ≤ eOld := by omega
    simp [process_and_serialize_object, hexist, hexempt', fileEpisodeField,
      serializeObject, hOld0, hnle, save_file]
  · intro hlt hov
    subst hov
    have hnle : ¬ eNew ≤ eOld := by omega
    simp [process_and_serialize_object, hexist, hexempt', fileEpisodeField,
      serializeObject, hOld0, hnle, save_file]
  · intro hle
    simp [process_and_serialize_object, hexist, hexempt', fileEpisodeField,
      serializeObject, hOld0, hle]

/-- Counterexample to claim C1 as stated: persisted episode 1, candidate
episode 2 (strictly newer), file not exempted, global overwrite setting
off — the flush leaves the file byte-identical and only logs a skip,
although the claim requires the strictly newer candidate to be written. -/
theorem sponsor_flush_counterexample :
    (1 : Int) < 2 ∧
    process_and_serialize_object
      ⟨[(["content", "sponsors", "acme.com-lup.json"],
         FileData.sponsorDoc ⟨"acme", some 1⟩)], []⟩
      "acme.com-lup.json" (RegObject.sponsor ⟨"acme", some 2⟩)
      ["content", "sponsors"] [] false =
      .ok (⟨[(["content", "sponsors", "acme.com-lup.json"],
              FileData.sponsorDoc ⟨"acme", some 1⟩)], []⟩,
           [LogEvent.skipExistsWarn]) :=
  ⟨by norm_num, rfl⟩

/-- Witness for claim C1's amended statement on concrete inputs
(persisted episode 3, candidate episode 2: skip logged, file unchanged). -/
theorem sponsor_flush_overwrite_gated_witness :
    process_and_serialize_object
      ⟨[(["content", "sponsors", "linode.com-lup.json"],
         FileData.sponsorDoc ⟨"linode", some 3⟩)], []⟩
      "linode.com-lup.json" (RegObject.sponsor ⟨"linode", some 2⟩)
      ["content", "sponsors"] [] true =
      .ok (⟨[(["content", "sponsors", "linode.com-lup.json"],
              FileData.sponsorDoc ⟨"linode", some 3⟩)], []⟩,
           [LogEvent.sponsorLatestWarn]) :=
  (sponsor_flush_overwrite_gated
      ⟨[(["content", "sponsors", "linode.com-lup.json"],
         FileData.sponsorDoc ⟨"linode", some 3⟩)], []⟩
      "linode.com-lup.json" "linode" "linode" ["content", "sponsors"] [] true 3 2
      rfl rfl (by norm_num) (by norm_num)).2.2 (by norm_num)

/-! ## Helper lemmas on the sponsor registry update -/

theorem registryVal_updateSponsor (reg : Option Sponsor) (s : Sponsor) :
    registryVal (updateSponsor reg s) = max (registryVal reg) (sponsorVal s) := by
  unfold updateSponsor
  by_cases h : registryVal reg < sponsorVal s
  · rw [if_pos h, max_eq_right (le_of_lt h)]
    rfl
  · rw [if_neg h, max_eq_left (le_of_not_lt h)]

theorem foldl_updateSponsor_mem (l : List Sponsor) (r : Option Sponsor) :
    l.foldl updateSponsor r = r ∨ ∃ m ∈ l, l.foldl updateSponsor r = some m := by
  induction l generalizing r with
  | nil => exact Or.inl rfl
  | cons s rest ih =>
      rcases ih (updateSponsor r s) with h | ⟨m, hm, hfold⟩
      · rw [List.foldl_cons, h]
        unfold updateSponsor
        by_cases hc : registryVal r < sponsorVal s
        · exact Or.inr ⟨s, List.mem_cons_self _ _, by rw [if_pos hc]⟩
        · rw [if_neg hc]
          exact Or.inl rfl
      · exact Or.inr ⟨m, List.mem_cons_of_mem _ hm, by rw [List.foldl_cons, hfold]⟩

theorem registryVal_foldl (l : List Sponsor) (r : Option Sponsor) :
    registryVal (l.foldl updateSponsor r) =
      l.foldl (fun a s => max a (sponsorVal s)) (registryVal r) := by
  induction l generalizing r with
  | nil => rfl
  | cons s rest ih =>
      rw [List.foldl_cons, List.foldl_cons, ih, registryVal_updateSponsor]

theorem foldl_max_bounds (l : List Sponsor) (a : Int) :
    a ≤ l.foldl (fun b s => max b (sponsorVal s)) a ∧
    ∀ s ∈ l, sponsorVal s ≤ l.foldl (fun b s => max b (sponsorVal s)) a := by
  induction l generalizing a with
  | nil => exact ⟨le_refl a, by simp⟩
  | cons s rest ih =>
      obtain ⟨h1, h2⟩ := ih (max a (sponsorVal s))
      refine ⟨le_trans (le_max_left _ _) h1, ?_⟩
      intro t ht
      rcases List.mem_cons.mp ht with h | h
      · subst h
        exact le_trans (le_max_right _ _) h1
      · exact h2 t h

theorem nodup_map_inj {f : Sponsor → Int} {l : List Sponsor}
    (hd : (l.map f).Nodup) : ∀ a ∈ l, ∀ b ∈ l, f a = f b → a = b :=
  fun _ ha _ hb hab => List.inj_on_of_nodup_map hd ha hb hab

theorem pyOrNegOne_pos_of_one_le {o : Option Int} (h : 1 ≤ pyOrNegOne o) :
    o = some (pyOrNegOne o) := by
  match o with
  | none => simp [pyOrNegOne] at h
  | some v =>
      by_cases hv : v = 0
      · subst hv; simp [pyOrNegOne] at h
      · simp [pyOrNegOne, hv]

theorem applySponsorUpdates_max (l : List Sponsor)
    (hpos : ∀ s ∈ l, 1 ≤ sponsorVal s) (hne : l ≠ []) :
    ∃ m, applySponsorUpdates l = some m ∧ m ∈ l ∧
      (∀ s ∈ l, sponsorVal s ≤ sponsorVal m) := by
  obtain ⟨s0, hs0⟩ : ∃ s, s ∈ l := by
    cases l with
    | nil => exact absurd rfl hne
    | cons a t => exact ⟨a, List.mem_cons_self _ _⟩
  have hval : registryVal (applySponsorUpdates l) =
      l.foldl (fun a s => max a (sponsorVal s)) (-1) := registryVal_foldl l none
  have hbounds := foldl_max_bounds l (-1)
  have hge1 : 1 ≤ registryVal (applySponsorUpdates l) := by
    rw [hval]
    exact le_trans (hpos s0 hs0) (hbounds.2 s0 hs0)
  rcases foldl_updateSponsor_mem l none with h | ⟨m, hm, hfold⟩
  · rw [applySponsorUpdates, h] at hge1
    norm_num [registryVal] at hge1
  · refine ⟨m, hfold, hm, ?_⟩
    intro s hs
    have : registryVal (some m) = l.foldl (fun a s => max a (sponsorVal s)) (-1) := by
      rw [← hfold]
      exact hval
    rw [registryVal] at this
    rw [this]
    exact hbounds.2 s hs

/-! ## Claim C2 -/

/-- Claim C2 (corrected): for in-memory `SponsorRecord` updates to the same
key whose episode numbers are all at least 1 and pairwise distinct, the
registry after all updates holds the unique record bearing the maximum
episode number, and applying the same multiset of updates in any order
yields the same final record.  (The correction: with strict `>` the first
record wins a tie, so order matters for records tied on the maximum
episode number, and an update whose episode number is 0 or missing is
treated as `-1` and dropped.) -/
theorem sponsor_registry_monotone_comm (l l2 : List Sponsor)
    (hpos : ∀ s ∈ l, 1 ≤ sponsorVal s) (hne : l ≠ [])
    (hdist : (l.map sponsorVal).Nodup) (hperm : l.Perm l2) :
    ∃ m, applySponsorUpdates l = some m ∧ m ∈ l ∧
      m.episode = some (sponsorVal m) ∧
      (∀ s ∈ l, sponsorVal s ≤ sponsorVal m) ∧
      applySponsorUpdates l2 = applySponsorUpdates l := by
  obtain ⟨m, hfold, hm, hmax⟩ := applySponsorUpdates_max l hpos hne
  have hpos2 : ∀ s ∈ l2, 1 ≤ sponsorVal s := fun s hs => hpos s (hperm.mem_iff.mpr hs)
  have hne2 : l2 ≠ [] := by
    intro h
    subst h
    exact hne (List.Perm.eq_nil hperm)
  obtain ⟨m2, hfold2, hm2, hmax2⟩ := applySponsorUpdates_max l2 hpos2 hne2
  have hm2l : m2 ∈ l := hperm.mem_iff.mpr hm2
  have hml2 : m ∈ l2 := hperm.mem_iff.mp hm
  have heq : sponsorVal m = sponsorVal m2 :=
    le_antisymm (hmax2 m hml2) (hmax m2 hm2l)
  have hmm2 : m = m2 := nodup_map_inj hdist m hm m2 hm2l heq
  refine ⟨m, hfold, hm, pyOrNegOne_pos_of_one_le (hpos m hm), hmax, ?_⟩
  rw [hfold2, hfold, hmm2]

/-- Counterexample to claim C2 as stated: two updates tied on episode 5 in
the two possible orders leave different final records (strict `>` keeps
the first seen), and a single update carrying episode number 0 leaves the
registry empty rather than holding the record with `max = 0`. -/
theorem sponsor_registry_counterexample :
    applySponsorUpdates [⟨"a", some 5⟩, ⟨"b", some 5⟩] = some ⟨"a", some 5⟩ ∧
    applySponsorUpdates [⟨"b", some 5⟩, ⟨"a", some 5⟩] = some ⟨"b", some 5⟩ ∧
    (⟨"a", some 5⟩ : Sponsor) ≠ ⟨"b", some 5⟩ ∧
    applySponsorUpdates [⟨"z", some 0⟩] = none := by
  refine ⟨rfl, rfl, ?_, rfl⟩
  intro h
  exact absurd (congrArg Sponsor.shortname h) (by decide)

/-- Witness for claim C2's amended statement: updates with distinct
positive episodes 1 and 3, in both orders. -/
theorem sponsor_registry_monotone_comm_witness :
    ∃ m, applySponsorUpdates [⟨"a", some 1⟩, ⟨"b", some 3⟩] = some m ∧
      m ∈ [(⟨"a", some 1⟩ : Sponsor), ⟨"b", some 3⟩] ∧
      m.episode = some (sponsorVal m) ∧
      (∀ s ∈ [(⟨"a", some 1⟩ : Sponsor), ⟨"b", some 3⟩], sponsorVal s ≤ sponsorVal m) ∧
      applySponsorUpdates [⟨"b", some 3⟩, ⟨"a", some 1⟩] =
        applySponsorUpdates [⟨"a", some 1⟩, ⟨"b", some 3⟩] :=
  sponsor_registry_monotone_comm
    [⟨"a", some 1⟩, ⟨"b", some 3⟩] [⟨"b", some 3⟩, ⟨"a", some 1⟩]
    (by decide) (by decide) (by decide) (by decide)

/-! ## Claim C4 -/

/-- Claim C4 (code bug): a chapters URL whose every attempt raises the
transient transport error across the configured retry bound does NOT yield
the no-chapters result: after logging the retry warnings and the
exhaustion error, `get_podcast_chapters` falls through to
`Chapters(**response.json())` with `response` still `None` and raises an
uncaught `AttributeError` — the call crashes instead of returning no
chapters as the spec requires. -/
theorem chapters_retry_exhaustion_crashes :
    get_podcast_chapters true 3 (fun _ => AttemptOutcome.transientError) =
      (Except.error PyError.attributeError,
       [LogEvent.chaptersRetryWarn, LogEvent.chaptersRetryWarn,
        LogEvent.chaptersRetryWarn, LogEvent.chaptersExhaustedError]) := rfl

/-! ## Claim C5 -/

/-- Claim C5 (corrected): an exception inside an episode build task is NOT
contained at the episode boundary.  The drain loop re-raises the first
failed future's exception, so the show-level registry flush executes iff
every task of the show succeeded, and the overall process completes
successfully iff no task of any show failed. -/
theorem episode_failure_aborts_show (results : List (Except PyError Unit))
    (shows : List (List (Except PyError Unit))) :
    ((runShowSection results).2 = true ↔ ∀ r ∈ results, r = .ok ()) ∧
    ((runShowSection results).1 = .ok () ↔ ∀ r ∈ results, r = .ok ()) ∧
    (scraperProcess shows = .ok () ↔ ∀ l ∈ shows, ∀ r ∈ l, r = .ok ()) := by
  refine ⟨?_, ?_, ?_⟩
  · rw [← drainFutures_ok_iff]
    unfold runShowSection
    cases h : drainFutures results with
    | ok u => cases u; simp [h]
    | error e => simp [h]
  · rw [← drainFutures_ok_iff]
    unfold runShowSection
    cases h : drainFutures results with
    | ok u => cases u; simp [h]
    | error e => simp [h]
  · induction shows with
    | nil => simp [scraperProcess]
    | cons l rest ih =>
        unfold scraperProcess runShowSection
        cases h : drainFutures l with
        | ok u =>
            cases u
            have hl : ∀ r ∈ l, r = Except.ok () := (drainFutures_ok_iff l).mp h
            simpa [ih] using fun _ => hl
        | error e =>
            have hl : ¬ ∀ r ∈ l, r = Except.ok () := by
              intro hall
              rw [(drainFutures_ok_iff l).mpr hall] at h
              exact Except.noConfusion h
            simp [hl]

/-- Witness for claim C5's amended statement on a concrete run of two
successful tasks and a one-show process. -/
theorem episode_failure_aborts_show_witness :
    ((runShowSection [Except.ok (), Except.ok ()]).2 = true ↔
       ∀ r ∈ ([Except.ok (), Except.ok ()] : List (Except PyError Unit)), r = .ok ()) ∧
    ((runShowSection [Except.ok (), Except.ok ()]).1 = .ok () ↔
       ∀ r ∈ ([Except.ok (), Except.ok ()] : List (Except PyError Unit)), r = .ok ()) ∧
    (scraperProcess [[Except.ok (), Except.ok ()]] = .ok () ↔
       ∀ l ∈ ([[Except.ok (), Except.ok ()]] : List (List (Except PyError Unit))),
         ∀ r ∈ l, r = .ok ()) :=
  episode_failure_aborts_show [Except.ok (), Except.ok ()] [[Except.ok (), Except.ok ()]]

/-- Counterexample to claim C5 as stated: with a single failing episode
task among successful siblings, the drain re-raises, the registry flush
does not execute, and the process terminates with the exception instead
of completing successfully. -/
theorem episode_failure_aborts_show_counterexample :
    runShowSection [Except.ok (), Except.error PyError.taskFailure, Except.ok ()] =
      (Except.error PyError.taskFailure, false) ∧
    scraperProcess [[Except.ok (), Except.error PyError.taskFailure, Except.ok ()]] =
      Except.error PyError.taskFailure := ⟨rfl, rfl⟩

/-! ## Claim C6 -/

/-- Claim C6 (code bug): a feed item marked as a bonus episode is NOT
skipped.  The schema (`EPISODE_TYPES`) only admits the capitalized value
`'Bonus'`, while `build_episode_file` compares against lowercase
`'bonus'`; the guard is false for every value the schema admits, so the
builder proceeds past the skip for bonus items (and for every item). -/
theorem bonus_items_not_skipped :
    build_episode_first_step (some EpisodeType.bonus) = BuildStep.proceeds ∧
    ∀ t : Option EpisodeType, build_episode_first_step t = BuildStep.proceeds := by
  refine ⟨rfl, ?_⟩
  intro t
  match t with
  | none => rfl
  | some .full => rfl
  | some .trailer => rfl
  | some .bonus => rfl

/-! ## Helper lemmas on `List.find?` -/

theorem find?_append_of_all_false {α : Type} (l1 l2 : List α) (p : α → Bool)
    (h : ∀ x ∈ l1, p x = false) : (l1 ++ l2).find? p = l2.find? p := by
  induction l1 with
  | nil => rfl
  | cons a t ih =>
      have ha : p a = false := h a (List.mem_cons_self _ _)
      simp [List.find?, ha, ih (fun x hx => h x (List.mem_cons_of_mem _ hx))]

theorem find?_none_of_all_false {α : Type} (l : List α) (p : α → Bool)
    (h : ∀ x ∈ l, p x = false) : l.find? p = none := by
  induction l with
  | nil => rfl
  | cons a t ih =>
      have ha : p a = false := h a (List.mem_cons_self _ _)
      simp [List.find?, ha, ih (fun x hx => h x (List.mem_cons_of_mem _ hx))]

/-! ## Claim C8 -/

/-- Claim C8 (confirmed): the title `"42: My Episode | Extra"` with no
structured episode field yields episode number 42 and padded form
`"0042"`; whenever the derived episode string is numeric the padded form
is the number zero-padded to a minimum width of four digits; and on the
fallback path the raw trailing URL segment, unpadded and with path
separators stripped, becomes the file key. -/
theorem episode_numbering_spec :
    (∀ link : String,
       deriveEpisodeNumber none "42: My Episode | Extra" link = (Sum.inl 42, "0042")) ∧
    (∀ pe : Option String, ∀ title link : String,
       pyIsNumeric (episodeString pe title) = true →
       deriveEpisodeNumber pe title link =
         (Sum.inl (pyInt (episodeString pe title)),
          pad4 (pyInt (episodeString pe title)))) ∧
    (∀ pe : Option String, ∀ title link : String,
       pyIsNumeric (episodeString pe title) = false →
       deriveEpisodeNumber pe title link =
         (Sum.inr (lastUrlSegment link), lastUrlSegment link) ∧
       outputFileName (deriveEpisodeNumber pe title link).2 =
         ((lastUrlSegment link).replace "/" "") ++ ".md") ∧
    (∀ n : Nat, (pad4 n).length = max 4 (toString n).length) := by
  refine ⟨fun link => rfl, ?_, ?_, ?_⟩
  · intro pe title link h
    simp only [deriveEpisodeNumber]
    rw [if_pos h]
  · intro pe title link h
    have hc : ¬ (pyIsNumeric (episodeString pe title) = true) := by simp [h]
    have h1 : deriveEpisodeNumber pe title link =
        (Sum.inr (lastUrlSegment link), lastUrlSegment link) := by
      simp only [deriveEpisodeNumber]
      rw [if_neg hc]
    exact ⟨h1, by rw [h1]; rfl⟩
  · intro n
    have hmk : (String.mk (List.replicate (4 - (toString n).length) '0')).length =
        4 - (toString n).length := by simp
    rw [pad4, String.length_append, hmk]
    omega

/-- Witness for claim C8: the concrete title of the claim, a numeric feed
episode, and a non-numeric fallback slug. -/
theorem episode_numbering_spec_witness :
    deriveEpisodeNumber none "42: My Episode | Extra" "https://example.com/ep" =
      (Sum.inl 42, "0042") ∧
    deriveEpisodeNumber (some "7") "Some Title" "https://example.com/x" =
      (Sum.inl (pyInt (episodeString (some "7") "Some Title")),
       pad4 (pyInt (episodeString (some "7") "Some Title"))) ∧
    deriveEpisodeNumber none "Untitled Episode" "https://example.com/my-slug" =
      (Sum.inr (lastUrlSegment "https://example.com/my-slug"),
       lastUrlSegment "https://example.com/my-slug") :=
  ⟨episode_numbering_spec.1 "https://example.com/ep",
   episode_numbering_spec.2.1 (some "7") "Some Title" "https://example.com/x" (by decide),
   (episode_numbering_spec.2.2.1 none "Untitled Episode" "https://example.com/my-slug"
     (by decide)).1⟩

/-! ## Claim C9 -/

/-- Claim C9 (confirmed): `get_canonical_username` returns the first key of
the configured alias mapping whose alias set contains the person's name;
when no alias set contains the name it returns the name lowercased with
every space replaced by a hyphen (so `"Jane Q. Public"` becomes
`"jane-q.-public"`). -/
theorem canonical_username_spec :
    (∀ m1 m2 : List (String × List String), ∀ k name : String, ∀ al : List String,
       (∀ kv ∈ m1, kv.2.contains name = false) → al.contains name = true →
       get_canonical_username (m1 ++ (k, al) :: m2) name = k) ∧
    (∀ m : List (String × List String), ∀ name : String,
       (∀ kv ∈ m, kv.2.contains name = false) →
       get_canonical_username m name = pyLowerHyphen name) ∧
    pyLowerHyphen "Jane Q. Public" = "jane-q.-public" := by
  refine ⟨?_, ?_, by decide⟩
  · intro m1 m2 k name al h1 h2
    have h2m : name ∈ al := by simpa using h2
    rw [get_canonical_username, find?_append_of_all_false _ _ _ h1]
    simp [List.find?, h2m]
  · intro m name h
    rw [get_canonical_username, find?_none_of_all_false _ _ h]

/-- Witness for claim C9: a two-entry alias table hit on its second key,
and the slug fallback for a name absent from every alias set. -/
theorem canonical_username_spec_witness :
    get_canonical_username
      [("chris", ["Chris Fisher"]), ("brent", ["Brent Gervais"])] "Brent Gervais" =
      "brent" ∧
    get_canonical_username [("chris", ["Chris Fisher"])] "Jane Q. Public" =
      pyLowerHyphen "Jane Q. Public" :=
  ⟨canonical_username_spec.1 [("chris", ["Chris Fisher"])] [] "brent" "Brent Gervais"
     ["Brent Gervais"] (by decide) (by decide),
   canonical_username_spec.2.1 [("chris", ["Chris Fisher"])] "Jane Q. Public" (by decide)⟩

/-! ## Claim C10 -/

/-- Claim C10 (confirmed): when a feed item carries an iTunes subtitle,
the built episode's description is that subtitle verbatim, and the result
does not depend on the description cleaner at all (it is never invoked);
the cleaner runs on the raw body exactly when the subtitle is absent. -/
theorem description_prefers_subtitle (c c' : String → String) (s raw : String) :
    episode_description c (some s) raw = s ∧
    episode_description c (some s) raw = episode_description c' (some s) raw ∧
    episode_description c none raw = c raw :=
  ⟨rfl, rfl, rfl⟩

/-- Witness for claim C10 at a concrete subtitle and two distinct cleaners. -/
theorem description_prefers_subtitle_witness :
    episode_description id (some "An episode subtitle") "<p>raw body</p>" =
      "An episode subtitle" ∧
    episode_description id (some "An episode subtitle") "<p>raw body</p>" =
      episode_description (fun _ => "cleaned") (some "An episode subtitle")
        "<p>raw body</p>" ∧
    episode_description id none "<p>raw body</p>" = id "<p>raw body</p>" :=
  description_prefers_subtitle id (fun _ => "cleaned") "An episode subtitle"
    "<p>raw body</p>"

end JBShowScraper
